import Mathlib

/-!
# Verification of the content-triage core (privacy router, review ledger, executor)

Shallow embedding of the repository's core Python modules:
* `services/llm/router.py` — the privacy router (`screen_then_analyze`, `complete`)
* `services/review/queue.py` — the review ledger (`create_email_review_batch`, `approve_batch`)
* `services/actions/executor.py` — the action executor (`execute_approved_actions`, `_execute_single`)
* `services/gmail/classifier.py` — the email classifier (`classify_email` parse/fallback phase)

External effects (LLM completions, Gmail API calls, HTTP requests, the database)
are modelled by explicit oracles (`Oracle`, `Env`) and by passing record lists for
the persisted tables; each outbound call is recorded in a trace so that routing
and dispatch properties are observable.
-/

namespace Automate

/-! ## LLM layer: `services/llm/base.py` and `services/llm/router.py` -/

/-- `LLMResponse` dataclass from `services/llm/base.py` (the `usage`/`raw`
bookkeeping fields carry no logic and are omitted). -/
structure LLMResponse where
  content : String
  model : String
  provider : String
deriving Repr, DecidableEq

/-- The subset of `Settings` (`config/settings.py`) that the router reads.
Provider enum values are embedded as their string values
("ollama"/"claude"/"gemini"), exactly what `.value` yields on the `StrEnum`. -/
structure Settings where
  default_provider : String
  high_quality_provider : String
  claude_api_key : String
  gemini_api_key : String
deriving Repr, DecidableEq

/-- `LLMRouter._init_providers`: "ollama" is always registered; "claude" and
"gemini" only when the corresponding API key is a non-empty string
(Python truthiness of `settings.claude_api_key`). -/
def initProviders (s : Settings) : List String :=
  ["ollama"]
    ++ (if s.claude_api_key ≠ "" then ["claude"] else [])
    ++ (if s.gemini_api_key ≠ "" then ["gemini"] else [])

/-- An oracle standing for the network: given a provider name and the prompt,
either the provider's response or a raised error message. -/
def Oracle : Type := String → String → Except String LLMResponse

/-- One outbound completion call: which provider saw which prompt. -/
structure Call where
  provider : String
  prompt : String
deriving Repr, DecidableEq

/-- `LLMRouter.get_provider`: resolve the requested name (default provider when
`None`) against the registered provider dict, raising `ValueError` otherwise. -/
def getProvider (s : Settings) (name? : Option String) : Except String String :=
  let name := name?.getD s.default_provider
  if (initProviders s).contains name then .ok name
  else .error ("Provider " ++ name ++ " not available")

/-- `LLMRouter.complete`: resolve the provider, then perform the outbound call.
Returns the result together with the trace of calls actually attempted. -/
def routerComplete (s : Settings) (env : Oracle) (prompt : String)
    (provider : Option String) : Except String LLMResponse × List Call :=
  match getProvider s provider with
  | .error e => (.error e, [])
  | .ok p => (env p prompt, [⟨p, prompt⟩])

/-- `template.format(content=content)`: substitution of the `content`
placeholder in a prompt template. -/
def fmtContent (template content : String) : String :=
  template.replace "\x7bcontent\x7d" content

/-- The sensitivity test at `router.py:80`:
`"SENSITIVE" in screening.content.upper()`. `str.upper` is character-wise
upcasing, embedded at the character-list level. -/
def isSensitiveText (text : String) : Bool :=
  decide ("SENSITIVE".toList <:+: text.toList.map Char.toUpper)

/-- The dict returned by `screen_then_analyze`. -/
structure ScreenOutcome where
  screening : LLMResponse
  analysis : LLMResponse
  kept_local : Bool
deriving Repr, DecidableEq

/-- `LLMRouter.screen_then_analyze` (`router.py:60-103`).

Pass 1 always goes to `"ollama"`. If the screening text tests sensitive, the
analysis also goes to `"ollama"`; otherwise the target is the explicitly
requested provider or `settings.high_quality_provider`, falling back to
`"ollama"` when that target is not among the registered providers. The
returned `kept_local` field is the `is_sensitive` flag (`router.py:102`).
A raised error from either call propagates. The second component is the
trace of completion calls attempted. -/
def screen_then_analyze (s : Settings) (env : Oracle)
    (content screening_prompt analysis_prompt : String)
    (analysis_provider : Option String) : Except String ScreenOutcome × List Call :=
  let (scrRes, log1) := routerComplete s env (fmtContent screening_prompt content) (some "ollama")
  match scrRes with
  | .error e => (.error e, log1)
  | .ok screening =>
    let is_sensitive := isSensitiveText screening.content
    if is_sensitive then
      let (anaRes, log2) := routerComplete s env (fmtContent analysis_prompt content) (some "ollama")
      match anaRes with
      | .error e => (.error e, log1 ++ log2)
      | .ok analysis => (.ok ⟨screening, analysis, is_sensitive⟩, log1 ++ log2)
    else
      let target0 := analysis_provider.getD s.high_quality_provider
      let target := if (initProviders s).contains target0 then target0 else "ollama"
      let (anaRes, log2) := routerComplete s env (fmtContent analysis_prompt content) (some target)
      match anaRes with
      | .error e => (.error e, log1 ++ log2)
      | .ok analysis => (.ok ⟨screening, analysis, is_sensitive⟩, log1 ++ log2)

/-! ## Data model: `services/database.py` -/

/-- `ContentSource` enum. -/
inductive ContentSource
  | email | bookmark | rss | photo
deriving Repr, DecidableEq

/-- `ReviewStatus` enum (`partial` is a Lean keyword, embedded as
`partialStatus`). -/
inductive ReviewStatus
  | pending | approved | rejected | partialStatus
deriving Repr, DecidableEq

/-- `ActionType` enum. -/
inductive ActionType
  | label | archive | delete | unsubscribe | draft_reply | mark_read
  | bookmark_tag | publish_summary
deriving Repr, DecidableEq

/-- The string value of an `ActionType` member; `StrEnum` members stringify to
their value, which is what `str(action.action_type)` interpolates. -/
def ActionType.value : ActionType → String
  | .label => "label"
  | .archive => "archive"
  | .delete => "delete"
  | .unsubscribe => "unsubscribe"
  | .draft_reply => "draft_reply"
  | .mark_read => "mark_read"
  | .bookmark_tag => "bookmark_tag"
  | .publish_summary => "publish_summary"

/-- `ContentItem` row. Timestamps are abstract ticks (`Nat`); the
`metadata_json` map is represented by the single key the executor reads
(`thread_id`). Fields never read by the embedded functions
(`full_content`, `url`, `created_at`) are omitted. -/
structure ContentItem where
  id : Nat
  account_id : Nat
  source : ContentSource
  external_id : String
  title : String
  snippet : String
  sender : Option String
  category : Option String
  summary : Option String
  sensitivity_flag : Bool
  ai_provider_used : Option String
  thread_id : Option String
  processed_at : Option Nat
deriving Repr, DecidableEq

/-- The `action_params` JSON map, represented by the three keys the code ever
writes or reads (`label`, `unsubscribe_url`, `reply_body`); `none` = key
absent. -/
structure ActionParams where
  label : Option String := none
  unsubscribe_url : Option String := none
  reply_body : Option String := none
deriving Repr, DecidableEq

/-- `ProposedAction` row. `approved` is the nullable tri-state column
(`none` = pending review). -/
structure ProposedAction where
  id : Nat
  batch_id : Nat
  content_item_id : Nat
  action_type : ActionType
  action_params : Option ActionParams
  reason : String
  approved : Option Bool
  executed : Bool
  executed_at : Option Nat
  error : Option String
deriving Repr, DecidableEq

/-- `ReviewBatch` row. -/
structure ReviewBatch where
  id : Nat
  account_id : Nat
  status : ReviewStatus
  batch_summary : String
  item_count : Nat
  reviewed_at : Option Nat
deriving Repr, DecidableEq

/-! ## Review ledger: `services/review/queue.py` -/

/-- `EmailMessage` dataclass from `services/gmail/client.py` (fields used by
the ledger and classifier). -/
structure EmailMessage where
  id : String
  thread_id : String
  subject : String := ""
  sender : String := ""
  date : String := ""
  snippet : String := ""
  body_text : String := ""
deriving Repr, DecidableEq

/-- `ClassificationResult` dataclass from `services/gmail/classifier.py`,
at its annotated field types. -/
structure ClassificationResult where
  email_id : String
  category : String
  reason : String
  suggested_actions : List String
  priority : Int
  is_sensitive : Bool
  analyzed_locally : Bool
  unsubscribe_url : Option String := none
deriving Repr, DecidableEq

/-- `ACTION_MAP.get(action_name)` (`queue.py:20-28`): "keep" maps to `None`
explicitly, and `.get` returns `None` for names outside the dict. -/
def actionMap (name : String) : Option ActionType :=
  if name = "archive" then some .archive
  else if name = "delete" then some .delete
  else if name = "unsubscribe" then some .unsubscribe
  else if name = "label" then some .label
  else if name = "draft_reply" then some .draft_reply
  else if name = "mark_read" then some .mark_read
  else none

/-- `emails.get(cls_result.email_id)`: the `msg_id -> EmailMessage` dict,
embedded as an association list. -/
def lookupEmail (emails : List (String × EmailMessage)) (key : String) : Option EmailMessage :=
  (emails.find? (fun p => p.1 == key)).map (·.2)

/-- The `params` dict built at `queue.py:79-83` for one proposed action. The
`unsubscribe_url` key is set only when the classifier URL is truthy
(not `None` and not the empty string). -/
def mkActionParams (cls : ClassificationResult) (t : ActionType) : ActionParams :=
  { label := if t = .label then some ("automate/" ++ cls.category.toLower) else none
    unsubscribe_url :=
      if t = .unsubscribe then
        match cls.unsubscribe_url with
        | some u => if u = "" then none else some u
        | none => none
      else none
    reply_body := none }

/-- The inner loop at `queue.py:74-92`: one `ProposedAction` per suggested
action name that maps to an `ActionType`; ids are assigned sequentially by
the database, modelled as a counter. -/
def mkActions (cls : ClassificationResult) (batchId itemId : Nat) :
    Nat → List String → List ProposedAction
  | _, [] => []
  | n, name :: rest =>
    match actionMap name with
    | none => mkActions cls batchId itemId n rest
    | some t =>
      { id := n, batch_id := batchId, content_item_id := itemId, action_type := t,
        action_params := some (mkActionParams cls t), reason := cls.reason,
        approved := none, executed := false, executed_at := none, error := none }
        :: mkActions cls batchId itemId (n + 1) rest

/-- `summaries_by_category` bookkeeping (`queue.py:94-97`): a count map in
insertion order. -/
def bumpCount (key : String) : List (String × Nat) → List (String × Nat)
  | [] => [(key, 1)]
  | (k, n) :: rest =>
    if k == key then (k, n + 1) :: rest else (k, n) :: bumpCount key rest

/-- Insertion into a list sorted by key, for `sorted(summaries_by_category.items())`. -/
def insertSorted (p : String × Nat) : List (String × Nat) → List (String × Nat)
  | [] => [p]
  | q :: rest => if decide (p.1 < q.1) then p :: q :: rest else q :: insertSorted p rest

/-- `sorted(...)` on the category count map (keys are distinct, so sorting by
key alone matches Python tuple ordering). -/
def sortByKey : List (String × Nat) → List (String × Nat)
  | [] => []
  | p :: rest => insertSorted p (sortByKey rest)

/-- Accumulator for the loop over classifications. -/
structure BuildState where
  items : List ContentItem
  actions : List ProposedAction
  counts : List (String × Nat)
  nextItemId : Nat
  nextActionId : Nat
deriving Repr, DecidableEq

/-- One iteration of the loop at `queue.py:51-97`: classifications whose
`email_id` has no matching message are skipped silently; otherwise a
`ContentItem` and its proposed actions are created and the category count is
bumped. -/
def buildStep (account_id batchId : Nat) (emails : List (String × EmailMessage))
    (now : Nat) (st : BuildState) (cls : ClassificationResult) : BuildState :=
  match lookupEmail emails cls.email_id with
  | none => st
  | some msg =>
    let item : ContentItem :=
      { id := st.nextItemId, account_id := account_id, source := .email,
        external_id := cls.email_id, title := msg.subject, snippet := msg.snippet,
        sender := some msg.sender, category := some cls.category,
        summary := some cls.reason, sensitivity_flag := cls.is_sensitive,
        ai_provider_used := some (if cls.analyzed_locally then "local" else "cloud"),
        thread_id := none, processed_at := some now }
    let newActions := mkActions cls batchId item.id st.nextActionId cls.suggested_actions
    { items := st.items ++ [item]
      actions := st.actions ++ newActions
      counts := bumpCount cls.category st.counts
      nextItemId := st.nextItemId + 1
      nextActionId := st.nextActionId + newActions.length }

/-- Result of `create_email_review_batch`: the created batch row plus the
content items and proposed actions inserted alongside it. -/
structure CreatedBatch where
  batch : ReviewBatch
  items : List ContentItem
  actions : List ProposedAction
deriving Repr, DecidableEq

/-- `create_email_review_batch` (`queue.py:31-105`). The batch is created with
`status=PENDING` and `item_count=len(classifications)` before the loop runs;
database-assigned ids are modelled by the `batchId`/`firstItemId`/
`firstActionId` counters. -/
def create_email_review_batch (account_id : Nat)
    (classifications : List ClassificationResult)
    (emails : List (String × EmailMessage))
    (batchId firstItemId firstActionId now : Nat) : CreatedBatch :=
  let st := classifications.foldl (buildStep account_id batchId emails now)
    { items := [], actions := [], counts := [],
      nextItemId := firstItemId, nextActionId := firstActionId }
  let parts := (sortByKey st.counts).map (fun p => toString p.2 ++ " " ++ p.1.toLower)
  { batch :=
      { id := batchId, account_id := account_id, status := .pending,
        batch_summary := "Email batch: " ++ String.intercalate ", " parts,
        item_count := classifications.length, reviewed_at := none }
    items := st.items
    actions := st.actions }

/-- Result of `approve_batch`: the updated batch row and the updated action
rows of that batch (the rows the function loads, mutates and commits). -/
structure ApproveOutcome where
  batch : ReviewBatch
  actions : List ProposedAction
deriving Repr, DecidableEq

/-- `approve_batch` (`queue.py:145-191`). Looks up the batch (raising
`ValueError` when absent), loads all actions of the batch, then applies the
transition rule: `reject_all` wins over everything; `approved_action_ids=None`
approves everything; otherwise each approval flag becomes membership of the
action id in the supplied set, and the status is PARTIAL when both an
approved and a rejected action exist, APPROVED when some action is approved,
REJECTED otherwise. The current batch status is never consulted. -/
def approve_batch (batches : List ReviewBatch) (db_actions : List ProposedAction)
    (batch_id : Nat) (approved_action_ids : Option (List Nat)) (reject_all : Bool)
    (now : Nat) : Except String ApproveOutcome :=
  match batches.find? (fun b => b.id == batch_id) with
  | none => .error ("Batch " ++ toString batch_id ++ " not found")
  | some batch =>
    let actions := db_actions.filter (fun a => a.batch_id == batch_id)
    if reject_all then
      let actions := actions.map (fun a => { a with approved := some false })
      .ok ⟨{ batch with status := .rejected, reviewed_at := some now }, actions⟩
    else
      match approved_action_ids with
      | none =>
        let actions := actions.map (fun a => { a with approved := some true })
        .ok ⟨{ batch with status := .approved, reviewed_at := some now }, actions⟩
      | some ids =>
        let actions := actions.map (fun a => { a with approved := some (ids.contains a.id) })
        let has_approved := actions.any (fun a => a.approved == some true)
        let has_rejected := actions.any (fun a => a.approved == some false)
        let status :=
          if has_approved && has_rejected then ReviewStatus.partialStatus
          else if has_approved then ReviewStatus.approved
          else ReviewStatus.rejected
        .ok ⟨{ batch with status := status, reviewed_at := some now }, actions⟩

/-! ## Action executor: `services/actions/executor.py` -/

/-- One call to the external action capability (Gmail API or the HTTP client
used for unsubscribe URLs). -/
inductive ExtCall
  | archive (msg_id : String)
  | trash (msg_id : String)
  | mark_read (msg_id : String)
  | get_or_create_label (name : String)
  | add_label (msg_id : String) (label_id : String)
  | create_draft (toAddr subject body : String) (thread_id : Option String)
  | http_get (url : String)
deriving Repr, DecidableEq

/-- The external world for the executor: each call either returns a value
(label id, HTTP status, ...) or raises an error message. -/
def Env : Type := ExtCall → Except String String

/-- Perform one external call, recording it in the trace. A call that raises
is still in the trace: it was attempted. -/
def run1 (env : Env) (c : ExtCall) : Except String Unit × List ExtCall :=
  match env c with
  | .error e => (.error e, [c])
  | .ok _ => (.ok (), [c])

/-- Python truthiness of an optional string (`None` and `""` are falsy). -/
def strTruthy : Option String → Bool
  | some s => s ≠ ""
  | none => false

/-- `url.startswith("http")`, embedded as a character-list prefix test. -/
def startsWithHttp (url : String) : Bool :=
  decide ("http".toList <+: url.toList)

/-- `_execute_single` (`executor.py:58-102`). Dispatch on the action kind.
The UNSUBSCRIBE branch performs the HTTP GET and the archive inside the same
(outer) guard: there is no `try` around the GET in the source, so a raised
GET aborts the branch before `gmail.archive` runs. Kinds outside the match
arms raise `ValueError`. The trace lists the external calls attempted, in
order, up to the first raise. -/
def execSingle (action : ProposedAction) (item : ContentItem) (env : Env) :
    Except String Unit × List ExtCall :=
  let msg_id := item.external_id
  let params := action.action_params.getD {}
  match action.action_type with
  | .archive => run1 env (.archive msg_id)
  | .delete => run1 env (.trash msg_id)
  | .mark_read => run1 env (.mark_read msg_id)
  | .label =>
    let label_name := params.label.getD "automate/general"
    match env (.get_or_create_label label_name) with
    | .error e => (.error e, [.get_or_create_label label_name])
    | .ok label_id =>
      match env (.add_label msg_id label_id) with
      | .error e => (.error e, [.get_or_create_label label_name, .add_label msg_id label_id])
      | .ok _ => (.ok (), [.get_or_create_label label_name, .add_label msg_id label_id])
  | .unsubscribe =>
    if strTruthy params.unsubscribe_url
        && startsWithHttp (params.unsubscribe_url.getD "") then
      let url := params.unsubscribe_url.getD ""
      match env (.http_get url) with
      | .error e => (.error e, [.http_get url])
      | .ok _ =>
        match env (.archive msg_id) with
        | .error e => (.error e, [.http_get url, .archive msg_id])
        | .ok _ => (.ok (), [.http_get url, .archive msg_id])
    else
      run1 env (.archive msg_id)
  | .draft_reply =>
    let reply_body := params.reply_body.getD ""
    if reply_body ≠ "" && strTruthy item.sender then
      run1 env (.create_draft (item.sender.getD "") ("Re: " ++ item.title)
        reply_body item.thread_id)
    else
      (.ok (), [])
  | .bookmark_tag => (.error ("Unknown action type: " ++ ActionType.value .bookmark_tag), [])
  | .publish_summary => (.error ("Unknown action type: " ++ ActionType.value .publish_summary), [])

/-- The execution summary dict returned by `execute_approved_actions`. -/
structure ExecSummary where
  total : Nat
  succeeded : Nat
  failed : Nat
  errors : List (Nat × String)
deriving Repr, DecidableEq

/-- One iteration of the loop at `executor.py:31-52`: look up the owning
content item (missing item: terminal error recorded, marked executed, counts
as failed but is not appended to the errors list); otherwise dispatch, and
on a raise record the error text, mark executed and append to the errors
list. Returns the updated action, whether it succeeded, the errors-list
entry if any, and the external calls made. -/
def processOne (items : List ContentItem) (env : Env) (now : Nat)
    (a : ProposedAction) : ProposedAction × Bool × Option (Nat × String) × List ExtCall :=
  match items.find? (fun i => i.id == a.content_item_id) with
  | none =>
    ({ a with
        error := some "Content item not found"
        executed := true
        executed_at := some now }, false, none, [])
  | some item =>
    match execSingle a item env with
    | (.ok _, calls) =>
      ({ a with executed := true, executed_at := some now }, true, none, calls)
    | (.error e, calls) =>
      ({ a with error := some e, executed := true, executed_at := some now },
       false, some (a.id, e), calls)

/-- The batch pass over an already-selected action list (`executor.py:29-52`):
the summary starts at `total = len(actions)` and every action is processed by
`processOne`; no exception escapes the loop. -/
def executeLoop (items : List ContentItem) (env : Env) (now : Nat)
    (actions : List ProposedAction) : ExecSummary × List ProposedAction × List ExtCall :=
  actions.foldl
    (fun acc a =>
      let (a2, ok, err?, cs) := processOne items env now a
      ({ acc.1 with
          succeeded := acc.1.succeeded + (if ok then 1 else 0)
          failed := acc.1.failed + (if ok then 0 else 1)
          errors := acc.1.errors ++ (match err? with | some e => [e] | none => []) },
       acc.2.1 ++ [a2], acc.2.2 ++ cs))
    ({ total := actions.length, succeeded := 0, failed := 0, errors := [] }, [], [])

/-- The third conjunct of the WHERE clause at `executor.py:24`. The source
writes `not ProposedAction.executed`: Python applies `not` to the column
attribute object itself, which is truthy, so the expression evaluates to the
constant `False`, which SQLAlchemy coerces to the SQL FALSE literal (the
SQL negation would be `~ProposedAction.executed`). -/
def notExecutedClause : Bool := false

/-- The SELECT at `executor.py:20-27`: actions of the batch whose nullable
`approved` column is TRUE, conjoined with `notExecutedClause`. -/
def selectForExecution (db_actions : List ProposedAction) (batch_id : Nat) :
    List ProposedAction :=
  db_actions.filter (fun a =>
    a.batch_id == batch_id && a.approved == some true && notExecutedClause)

/-- `execute_approved_actions` (`executor.py:14-55`): run the batch pass over
the selected actions. -/
def execute_approved_actions (db_actions : List ProposedAction)
    (items : List ContentItem) (batch_id : Nat) (env : Env) (now : Nat) :
    ExecSummary × List ProposedAction × List ExtCall :=
  executeLoop items env now (selectForExecution db_actions batch_id)

/-! ## Classifier parse phase: `services/gmail/classifier.py` -/

/-- JSON values, the possible outcomes of `json.loads` on the analysis text. -/
inductive Json
  | null
  | bool (b : Bool)
  | num (n : Int)
  | str (s : String)
  | arr (elts : List Json)
  | obj (fields : List (String × Json))
deriving Repr

/-- Python `dict.get(key, default)` on a parsed JSON object. -/
def dictGet (fields : List (String × Json)) (key : String) (dflt : Json) : Json :=
  match fields.find? (fun p => p.1 == key) with
  | some p => p.2
  | none => dflt

/-- Python type name of a JSON value, as it appears in an `AttributeError`. -/
def pyTypeName : Json → String
  | .null => "NoneType"
  | .bool _ => "bool"
  | .num _ => "int"
  | .str _ => "str"
  | .arr _ => "list"
  | .obj _ => "dict"

/-- Coercion used where the code stores a JSON value into a `str`-annotated
dataclass field. Python performs no conversion or validation, so this is
faithful exactly when the value is a string; every input appearing in the
theorems below has string-valued fields. -/
def Json.asPyStr : Json → String
  | .str s => s
  | .bool true => "True"
  | .bool false => "False"
  | .null => "None"
  | .num n => toString n
  | .arr _ => "<list>"
  | .obj _ => "<dict>"

/-- Same, for the `list[str]`-annotated `suggested_actions` field. -/
def Json.asPyStrList : Json → List String
  | .arr l => l.map Json.asPyStr
  | _ => []

/-- Same, for the `int`-annotated `priority` field. -/
def Json.asPyInt : Json → Int
  | .num n => n
  | .bool true => 1
  | .bool false => 0
  | _ => 0

/-- The `try`/`except` at `classifier.py:92-103`. The `try` wraps only
`json.loads`: a parse failure (`loadResult = none`) yields the fallback dict
with `category="FYI"`, `reason=content[:200]`, `suggested_actions=["keep"]`,
`priority=3`. The subsequent `.get` accesses run outside the `try`, so text
that parses to a non-object JSON value raises `AttributeError` (no `.get`
attribute) past this point. -/
def classificationDict (loadResult : Option Json) (content : String) :
    Except String (List (String × Json)) :=
  match loadResult with
  | none =>
    .ok [("category", .str "FYI"), ("reason", .str (content.take 200)),
         ("suggested_actions", .arr [.str "keep"]), ("priority", .num 3)]
  | some (.obj fields) => .ok fields
  | some j => .error ("AttributeError: " ++ pyTypeName j ++ " object has no attribute get")

/-- The parse-and-construct phase of `classify_email` (`classifier.py:92-114`):
`loadResult` is the outcome of `json.loads(result["analysis"].content)`
(`none` = raised `JSONDecodeError`), `content` the raw analysis text and
`kept_local` the routing flag from `screen_then_analyze`, which the code
stores into both `is_sensitive` and `analyzed_locally`. -/
def classify_email_result (msg_id : String) (loadResult : Option Json)
    (content : String) (kept_local : Bool) : Except String ClassificationResult :=
  match classificationDict loadResult content with
  | .error e => .error e
  | .ok fields =>
    .ok { email_id := msg_id
          category := (dictGet fields "category" (.str "FYI")).asPyStr
          reason := (dictGet fields "reason" (.str "")).asPyStr
          suggested_actions := (dictGet fields "suggested_actions" (.arr [.str "keep"])).asPyStrList
          priority := (dictGet fields "priority" (.num 3)).asPyInt
          is_sensitive := kept_local
          analyzed_locally := kept_local
          unsubscribe_url := none }

/-! ## Helper lemmas for the router -/

theorem getProvider_ollama (s : Settings) : getProvider s (some "ollama") = .ok "ollama" := by
  unfold getProvider initProviders
  simp

theorem getProvider_of_contains (s : Settings) (name : String)
    (h : (initProviders s).contains name = true) :
    getProvider s (some name) = .ok name := by
  unfold getProvider
  simp only [Option.getD_some, h, if_true]

/-- Characterization of `screen_then_analyze`: the screening call always goes
to "ollama"; the analysis target is "ollama" when sensitive, otherwise the
requested/default provider with fallback to "ollama"; `kept_local` is the
sensitivity flag. -/
theorem screen_then_analyze_eq (s : Settings) (env : Oracle)
    (content sp ap : String) (provider? : Option String) :
    screen_then_analyze s env content sp ap provider? =
      match env "ollama" (fmtContent sp content) with
      | .error e => (.error e, [⟨"ollama", fmtContent sp content⟩])
      | .ok screening =>
        let target :=
          if isSensitiveText screening.content then "ollama"
          else
            let t0 := provider?.getD s.high_quality_provider
            if (initProviders s).contains t0 then t0 else "ollama"
        match env target (fmtContent ap content) with
        | .error e =>
          (.error e, [⟨"ollama", fmtContent sp content⟩, ⟨target, fmtContent ap content⟩])
        | .ok analysis =>
          (.ok ⟨screening, analysis, isSensitiveText screening.content⟩,
           [⟨"ollama", fmtContent sp content⟩, ⟨target, fmtContent ap content⟩]) := by
  unfold screen_then_analyze routerComplete
  rw [getProvider_ollama]
  dsimp only
  cases henv : env "ollama" (fmtContent sp content) with
  | error e => rfl
  | ok screening =>
    dsimp only
    by_cases hs : isSensitiveText screening.content = true
    · simp only [hs, if_true]
      cases env "ollama" (fmtContent ap content) <;> rfl
    · rw [Bool.not_eq_true] at hs
      simp only [hs, Bool.false_eq_true, if_false]
      by_cases hc : (initProviders s).contains (provider?.getD s.high_quality_provider) = true
      · simp only [hc, if_true]
        rw [getProvider_of_contains s _ hc]
        dsimp only
        cases env (provider?.getD s.high_quality_provider) (fmtContent ap content) <;> rfl
      · rw [Bool.not_eq_true] at hc
        simp only [hc, Bool.false_eq_true, if_false]
        rw [getProvider_ollama]
        dsimp only
        cases env "ollama" (fmtContent ap content) <;> rfl

/-! ## Test fixtures (concrete environments and records for witnesses) -/

/-- Settings with no cloud key configured; the high-quality default is
"claude". Matches the defaults in `config/settings.py` with an empty
environment. -/
def sCfg : Settings :=
  { default_provider := "ollama", high_quality_provider := "claude",
    claude_api_key := "", gemini_api_key := "" }

/-- An oracle whose model always answers "CLEAN". -/
def cleanEnv : Oracle := fun _ _ => .ok ⟨"CLEAN", "qwen", "ollama"⟩

/-- An oracle whose model flags the content (mixed case, embedded in a
sentence). -/
def sensEnv : Oracle := fun _ _ => .ok ⟨"found Sensitive data", "qwen", "ollama"⟩

/-- An oracle standing for an unreachable local model. -/
def downEnv : Oracle := fun _ _ => .error "ollama unreachable"

/-! ## C2 — sensitive content is analyzed locally -/

/-- C2: whenever the screening response text contains the marker "SENSITIVE"
in any letter case (the code tests `"SENSITIVE" in content.upper()`),
`screen_then_analyze` runs the analysis call on the local ("ollama")
provider — for every configuration `s` and every requested
`analysis_provider` — and returns `kept_local = true`. The trace shows both
calls went to "ollama". -/
theorem sensitive_content_analyzed_locally (s : Settings) (env : Oracle)
    (content sp ap : String) (provider? : Option String) (scr ana : LLMResponse)
    (hscr : env "ollama" (fmtContent sp content) = .ok scr)
    (hsens : isSensitiveText scr.content = true)
    (hana : env "ollama" (fmtContent ap content) = .ok ana) :
    screen_then_analyze s env content sp ap provider? =
      (.ok ⟨scr, ana, true⟩,
       [⟨"ollama", fmtContent sp content⟩, ⟨"ollama", fmtContent ap content⟩]) := by
  rw [screen_then_analyze_eq, hscr]
  simp only [hsens, if_true]
  rw [hana]

/-- Witness for C2 at a concrete input: cloud provider "gemini" explicitly
requested, yet the analysis runs on "ollama" and `kept_local = true`. -/
theorem sensitive_content_analyzed_locally_witness :
    screen_then_analyze sCfg sensEnv "c" "sp" "ap" (some "gemini") =
      (.ok ⟨⟨"found Sensitive data", "qwen", "ollama"⟩,
            ⟨"found Sensitive data", "qwen", "ollama"⟩, true⟩,
       [⟨"ollama", fmtContent "sp" "c"⟩, ⟨"ollama", fmtContent "ap" "c"⟩]) :=
  sensitive_content_analyzed_locally sCfg sensEnv "c" "sp" "ap" (some "gemini")
    ⟨"found Sensitive data", "qwen", "ollama"⟩ ⟨"found Sensitive data", "qwen", "ollama"⟩
    rfl (by decide) rfl

/-! ## C5 — screening failure fails closed -/

/-- C5: if the screening call on the local provider raises, the whole
`screen_then_analyze` operation surfaces that error, and the trace shows the
screening call was the only outbound call: no analysis call was made, and in
particular nothing was routed to a cloud provider. -/
theorem screening_failure_fails_closed (s : Settings) (env : Oracle)
    (content sp ap : String) (provider? : Option String) (e : String)
    (h : env "ollama" (fmtContent sp content) = .error e) :
    screen_then_analyze s env content sp ap provider? =
      (.error e, [⟨"ollama", fmtContent sp content⟩]) := by
  rw [screen_then_analyze_eq, h]

/-- Witness for C5 at a concrete input: local model down, cloud provider
requested; the operation fails with the screening error after exactly one
(local) call. -/
theorem screening_failure_fails_closed_witness :
    screen_then_analyze sCfg downEnv "acct" "sp" "ap" (some "claude") =
      (.error "ollama unreachable", [⟨"ollama", fmtContent "sp" "acct"⟩]) :=
  screening_failure_fails_closed sCfg downEnv "acct" "sp" "ap" (some "claude")
    "ollama unreachable" rfl

/-! ## C3 — `kept_local` versus the actual analysis target -/

/-- C3 counterexample. Configuration: no cloud key, high-quality default
"claude" (so the clean branch falls back to "ollama"); the model answers
"CLEAN". The analysis call target is "ollama" — the trace records both calls
on the local provider — yet the returned `kept_local` is `false`. The claim
says `kept_local` is true if and only if the final analysis call ran on the
local provider, and in particular true in exactly this fallback case. -/
theorem kept_local_false_despite_local_fallback :
    screen_then_analyze sCfg cleanEnv "c" "sp" "ap" none =
      (.ok ⟨⟨"CLEAN", "qwen", "ollama"⟩, ⟨"CLEAN", "qwen", "ollama"⟩, false⟩,
       [⟨"ollama", fmtContent "sp" "c"⟩, ⟨"ollama", fmtContent "ap" "c"⟩]) := by
  rw [screen_then_analyze_eq]
  rfl

/-- C3 amended: the `kept_local` field equals the screening sensitivity flag
(`router.py:102` returns `"kept_local": is_sensitive`), not the final
analysis target; when the screening is clean and the chosen provider is not
among the configured ones, the analysis still runs on the local provider but
`kept_local` is `false`. -/
theorem kept_local_equals_screening_flag (s : Settings) (env : Oracle)
    (content sp ap : String) (provider? : Option String) (out : ScreenOutcome)
    (h : (screen_then_analyze s env content sp ap provider?).1 = .ok out) :
    out.kept_local = isSensitiveText out.screening.content ∧
    (isSensitiveText out.screening.content = false →
      (initProviders s).contains (provider?.getD s.high_quality_provider) = false →
      (screen_then_analyze s env content sp ap provider?).2 =
        [⟨"ollama", fmtContent sp content⟩, ⟨"ollama", fmtContent ap content⟩]) := by
  rw [screen_then_analyze_eq] at h ⊢
  revert h
  cases henv : env "ollama" (fmtContent sp content) with
  | error e => intro h; exact absurd h (by simp)
  | ok screening =>
    intro h
    dsimp only at h ⊢
    by_cases hs : isSensitiveText screening.content = true
    · simp only [hs, if_true] at h ⊢
      revert h
      cases hana : env "ollama" (fmtContent ap content) with
      | error e => intro h; exact absurd h (by simp)
      | ok analysis =>
        intro h
        simp only [Except.ok.injEq] at h
        subst h
        refine ⟨by simp [hs], ?_⟩
        intro hcontra _
        simp [hs] at hcontra
    · rw [Bool.not_eq_true] at hs
      simp only [hs, Bool.false_eq_true, if_false] at h ⊢
      by_cases hc : (initProviders s).contains (provider?.getD s.high_quality_provider) = true
      · simp only [hc, if_true] at h ⊢
        revert h
        cases hana : env (provider?.getD s.high_quality_provider) (fmtContent ap content) with
        | error e => intro h; exact absurd h (by simp)
        | ok analysis =>
          intro h
          simp only [Except.ok.injEq] at h
          subst h
          exact ⟨by simp [hs], fun _ hcontra => absurd hcontra (by simp)⟩
      · rw [Bool.not_eq_true] at hc
        simp only [hc, Bool.false_eq_true, if_false] at h ⊢
        revert h
        cases hana : env "ollama" (fmtContent ap content) with
        | error e => intro h; exact absurd h (by simp)
        | ok analysis =>
          intro h
          simp only [Except.ok.injEq] at h
          subst h
          exact ⟨by simp [hs], fun _ _ => rfl⟩

/-- Witness for the amended C3 at the counterexample input: the returned
flag equals the (clean) screening flag and the two calls both went local. -/
theorem kept_local_equals_screening_flag_witness :
    (ScreenOutcome.mk ⟨"CLEAN", "qwen", "ollama"⟩ ⟨"CLEAN", "qwen", "ollama"⟩ false).kept_local =
      isSensitiveText (ScreenOutcome.mk ⟨"CLEAN", "qwen", "ollama"⟩
        ⟨"CLEAN", "qwen", "ollama"⟩ false).screening.content ∧
    (isSensitiveText (ScreenOutcome.mk ⟨"CLEAN", "qwen", "ollama"⟩
        ⟨"CLEAN", "qwen", "ollama"⟩ false).screening.content = false →
      (initProviders sCfg).contains ((none : Option String).getD sCfg.high_quality_provider) = false →
      (screen_then_analyze sCfg cleanEnv "c" "sp" "ap" none).2 =
        [⟨"ollama", fmtContent "sp" "c"⟩, ⟨"ollama", fmtContent "ap" "c"⟩]) :=
  kept_local_equals_screening_flag sCfg cleanEnv "c" "sp" "ap" none
    ⟨⟨"CLEAN", "qwen", "ollama"⟩, ⟨"CLEAN", "qwen", "ollama"⟩, false⟩ rfl

/-! ## Helper lemmas and derived forms for `approve_batch` -/

/-- The approval flag the transition rule assigns to an action, read off the
branches of `approve_batch`; it depends only on the request inputs and the
action id, never on the batch. -/
def transitionFlag (ids? : Option (List Nat)) (reject_all : Bool)
    (a : ProposedAction) : Bool :=
  if reject_all then false
  else
    match ids? with
    | none => true
    | some ids => ids.contains a.id

/-- The status the transition rule assigns, read off the branches of
`approve_batch`; it depends only on the request inputs and the batch's
action list, never on the current status. -/
def transitionStatus (acts : List ProposedAction) (ids? : Option (List Nat))
    (reject_all : Bool) : ReviewStatus :=
  if reject_all then .rejected
  else
    match ids? with
    | none => .approved
    | some ids =>
      let has_approved := acts.any (fun a => ids.contains a.id)
      let has_rejected := acts.any (fun a => !ids.contains a.id)
      if has_approved && has_rejected then .partialStatus
      else if has_approved then .approved
      else .rejected

theorem any_map_approved_true (acts : List ProposedAction) (ids : List Nat) :
    ((acts.map (fun a => { a with approved := some (ids.contains a.id) })).any
      (fun a => a.approved == some true)) = acts.any (fun a => ids.contains a.id) := by
  induction acts with
  | nil => rfl
  | cons a t ih =>
    simp only [List.map_cons, List.any_cons]
    rw [ih]
    cases ids.contains a.id <;> rfl

theorem any_map_approved_false (acts : List ProposedAction) (ids : List Nat) :
    ((acts.map (fun a => { a with approved := some (ids.contains a.id) })).any
      (fun a => a.approved == some false)) = acts.any (fun a => !ids.contains a.id) := by
  induction acts with
  | nil => rfl
  | cons a t ih =>
    simp only [List.map_cons, List.any_cons]
    rw [ih]
    cases ids.contains a.id <;> rfl

/-- `approve_batch` on an existing batch equals the pure transition rule:
flags from `transitionFlag`, status from `transitionStatus`, `reviewed_at`
stamped — independently of the batch's stored status. -/
theorem approve_batch_eq_transition (batches : List ReviewBatch)
    (db_actions : List ProposedAction) (batch_id : Nat)
    (ids? : Option (List Nat)) (reject_all : Bool) (now : Nat) (batch : ReviewBatch)
    (hfind : batches.find? (fun b => b.id == batch_id) = some batch) :
    approve_batch batches db_actions batch_id ids? reject_all now =
      .ok ⟨{ batch with
              status := transitionStatus
                (db_actions.filter (fun a => a.batch_id == batch_id)) ids? reject_all,
              reviewed_at := some now },
           (db_actions.filter (fun a => a.batch_id == batch_id)).map
             (fun a => { a with approved := some (transitionFlag ids? reject_all a) })⟩ := by
  unfold approve_batch transitionStatus transitionFlag
  rw [hfind]
  cases reject_all with
  | true => rfl
  | false =>
    cases ids? with
    | none => rfl
    | some ids =>
      dsimp only
      rw [any_map_approved_true, any_map_approved_false]
      rfl

/-! ## C4 — the approval transition rule -/

/-- Fixture: an existing batch with no actions (such batches are
constructible, see `create_email_review_batch`). -/
def b4 : ReviewBatch :=
  { id := 4, account_id := 1, status := .pending, batch_summary := "",
    item_count := 1, reviewed_at := none }

/-- C4 counterexample: approving the empty-set request on an existing batch
with no actions yields status REJECTED, although every action of the batch
(vacuously: there are none) has approval flag true in the result — the claim
requires APPROVED whenever all flags are true. -/
theorem approve_batch_empty_set_rejected :
    approve_batch [b4] [] 4 (some []) false 9 =
      .ok ⟨{ b4 with status := .rejected, reviewed_at := some 9 }, []⟩ ∧
    (∀ a ∈ ([] : List ProposedAction), a.approved = some true) ∧
    ReviewStatus.rejected ≠ ReviewStatus.approved :=
  ⟨rfl, by simp, by decide⟩

/-- C4 amended: on an existing batch, `reject_all=true` sets every approval
flag false and the status to REJECTED regardless of any supplied id set;
`approved_action_ids=None` with `reject_all=false` sets every flag true and
the status to APPROVED; an explicit id set sets each flag to membership, and
the status becomes APPROVED when all flags are true and the batch has at
least one action, REJECTED when all flags are false — including when the
batch has no actions — and PARTIAL otherwise. -/
theorem approve_batch_transition_rule (batches : List ReviewBatch)
    (db_actions : List ProposedAction) (batch_id : Nat)
    (ids : List Nat) (now : Nat) (batch : ReviewBatch)
    (hfind : batches.find? (fun b => b.id == batch_id) = some batch) :
    (∀ ids? : Option (List Nat),
      approve_batch batches db_actions batch_id ids? true now =
        .ok ⟨{ batch with status := .rejected, reviewed_at := some now },
             (db_actions.filter (fun a => a.batch_id == batch_id)).map
               (fun a => { a with approved := some false })⟩) ∧
    (approve_batch batches db_actions batch_id none false now =
        .ok ⟨{ batch with status := .approved, reviewed_at := some now },
             (db_actions.filter (fun a => a.batch_id == batch_id)).map
               (fun a => { a with approved := some true })⟩) ∧
    (∃ st,
      approve_batch batches db_actions batch_id (some ids) false now =
        .ok ⟨{ batch with status := st, reviewed_at := some now },
             (db_actions.filter (fun a => a.batch_id == batch_id)).map
               (fun a => { a with approved := some (ids.contains a.id) })⟩ ∧
      (db_actions.filter (fun a => a.batch_id == batch_id) ≠ [] →
        (∀ a ∈ db_actions.filter (fun a => a.batch_id == batch_id),
          ids.contains a.id = true) →
        st = .approved) ∧
      ((∀ a ∈ db_actions.filter (fun a => a.batch_id == batch_id),
          ids.contains a.id = false) →
        st = .rejected) ∧
      ((∃ a ∈ db_actions.filter (fun a => a.batch_id == batch_id),
          ids.contains a.id = true) →
        (∃ a ∈ db_actions.filter (fun a => a.batch_id == batch_id),
          ids.contains a.id = false) →
        st = .partialStatus)) := by
  refine ⟨fun ids? => ?_, ?_, ?_⟩
  · rw [approve_batch_eq_transition batches db_actions batch_id ids? true now batch hfind]
    rfl
  · rw [approve_batch_eq_transition batches db_actions batch_id none false now batch hfind]
    rfl
  · rw [approve_batch_eq_transition batches db_actions batch_id (some ids) false now batch hfind]
    refine ⟨transitionStatus (db_actions.filter (fun a => a.batch_id == batch_id))
      (some ids) false, rfl, ?_, ?_, ?_⟩
    all_goals
      set acts := db_actions.filter (fun a => a.batch_id == batch_id) with hacts
    · intro hne hall
      have hA : acts.any (fun a => ids.contains a.id) = true := by
        rcases List.exists_mem_of_ne_nil acts hne with ⟨x, hx⟩
        exact List.any_eq_true.mpr ⟨x, hx, hall x hx⟩
      have hB : acts.any (fun a => !ids.contains a.id) = false := by
        rw [List.any_eq_false]
        intro x hx
        rw [hall x hx]
        decide
      unfold transitionStatus
      dsimp only
      rw [hA, hB]
      rfl
    · intro hall
      have hA : acts.any (fun a => ids.contains a.id) = false := by
        rw [List.any_eq_false]
        intro x hx
        rw [hall x hx]
        decide
      unfold transitionStatus
      dsimp only
      rw [hA]
      rfl
    · rintro ⟨x, hx, hxt⟩ ⟨y, hy, hyf⟩
      have hA : acts.any (fun a => ids.contains a.id) = true :=
        List.any_eq_true.mpr ⟨x, hx, hxt⟩
      have hB : acts.any (fun a => !ids.contains a.id) = true :=
        List.any_eq_true.mpr ⟨y, hy, by rw [hyf]; rfl⟩
      unfold transitionStatus
      dsimp only
      rw [hA, hB]
      rfl

/-- Witness for the amended C4 at a concrete input: batch 4 with one action,
approved with the set containing that action. -/
def a4 : ProposedAction :=
  { id := 41, batch_id := 4, content_item_id := 401, action_type := .archive,
    action_params := none, reason := "", approved := none, executed := false,
    executed_at := none, error := none }

theorem approve_batch_transition_rule_witness :
    (∀ ids? : Option (List Nat),
      approve_batch [b4] [a4] 4 ids? true 9 =
        .ok ⟨{ b4 with status := .rejected, reviewed_at := some 9 },
             ([a4].filter (fun a => a.batch_id == 4)).map
               (fun a => { a with approved := some false })⟩) ∧
    (approve_batch [b4] [a4] 4 none false 9 =
        .ok ⟨{ b4 with status := .approved, reviewed_at := some 9 },
             ([a4].filter (fun a => a.batch_id == 4)).map
               (fun a => { a with approved := some true })⟩) ∧
    (∃ st,
      approve_batch [b4] [a4] 4 (some [41]) false 9 =
        .ok ⟨{ b4 with status := st, reviewed_at := some 9 },
             ([a4].filter (fun a => a.batch_id == 4)).map
               (fun a => { a with approved := some ([41].contains a.id) })⟩ ∧
      ([a4].filter (fun a => a.batch_id == 4) ≠ [] →
        (∀ a ∈ [a4].filter (fun a => a.batch_id == 4), [41].contains a.id = true) →
        st = .approved) ∧
      ((∀ a ∈ [a4].filter (fun a => a.batch_id == 4), [41].contains a.id = false) →
        st = .rejected) ∧
      ((∃ a ∈ [a4].filter (fun a => a.batch_id == 4), [41].contains a.id = true) →
        (∃ a ∈ [a4].filter (fun a => a.batch_id == 4), [41].contains a.id = false) →
        st = .partialStatus)) :=
  approve_batch_transition_rule [b4] [a4] 4 [41] 9 b4 rfl

/-! ## C7 — non-PENDING statuses are not terminal -/

/-- Fixture: a batch already reviewed (status APPROVED) with one approved
action. -/
def b7 : ReviewBatch :=
  { id := 7, account_id := 1, status := .approved, batch_summary := "",
    item_count := 1, reviewed_at := some 2 }

def a7 : ProposedAction :=
  { id := 71, batch_id := 7, content_item_id := 701, action_type := .archive,
    action_params := none, reason := "", approved := some true,
    executed := false, executed_at := none, error := none }

/-- C7 counterexample: batch 7 is already APPROVED with its action approved,
yet a subsequent `reject_all` request flips the action's flag to false and
the status to REJECTED — APPROVED is not terminal. -/
theorem non_pending_batch_still_mutable :
    b7.status = ReviewStatus.approved ∧
    approve_batch [b7] [a7] 7 none true 3 =
      .ok ⟨{ b7 with status := .rejected, reviewed_at := some 3 },
           [{ a7 with approved := some false }]⟩ ∧
    ReviewStatus.rejected ≠ ReviewStatus.approved ∧
    (some false : Option Bool) ≠ some true :=
  ⟨rfl, rfl, by decide, by decide⟩

/-- C7 amended: `approve_batch` never reads the batch's current status: on
any existing batch — PENDING or not — the resulting status and flags are the
pure transition `transitionStatus`/`transitionFlag` of the request inputs
and the batch's action list, so any later approval request recomputes (and
can change) a non-PENDING batch's status and its actions' flags. -/
theorem approve_batch_ignores_prior_status (batches : List ReviewBatch)
    (db_actions : List ProposedAction) (batch_id : Nat)
    (ids? : Option (List Nat)) (reject_all : Bool) (now : Nat) (batch : ReviewBatch)
    (hfind : batches.find? (fun b => b.id == batch_id) = some batch) :
    approve_batch batches db_actions batch_id ids? reject_all now =
      .ok ⟨{ batch with
              status := transitionStatus
                (db_actions.filter (fun a => a.batch_id == batch_id)) ids? reject_all,
              reviewed_at := some now },
           (db_actions.filter (fun a => a.batch_id == batch_id)).map
             (fun a => { a with approved := some (transitionFlag ids? reject_all a) })⟩ :=
  approve_batch_eq_transition batches db_actions batch_id ids? reject_all now batch hfind

/-- Witness for the amended C7 at the already-APPROVED batch 7. -/
theorem approve_batch_ignores_prior_status_witness :
    approve_batch [b7] [a7] 7 none true 3 =
      .ok ⟨{ b7 with
              status := transitionStatus ([a7].filter (fun a => a.batch_id == 7)) none true,
              reviewed_at := some 3 },
           ([a7].filter (fun a => a.batch_id == 7)).map
             (fun a => { a with approved := some (transitionFlag none true a) })⟩ :=
  approve_batch_ignores_prior_status [b7] [a7] 7 none true 3 b7 rfl

/-! ## C10 — `item_count` counts all classifications, matched or not -/

/-- Fixture: one classification whose `email_id` has no matching message. -/
def cls10 : ClassificationResult :=
  { email_id := "zzz", category := "JUNK", reason := "spam",
    suggested_actions := ["archive"], priority := 1, is_sensitive := false,
    analyzed_locally := true, unsubscribe_url := none }

/-- C10: the created batch always has `item_count = len(classifications)`
and status PENDING; and concretely, with a non-empty classification list
whose ids match no message, the batch is created PENDING with `item_count=1`
but zero content items and zero proposed actions. -/
theorem item_count_counts_all_classifications :
    (∀ (account_id : Nat) (classifications : List ClassificationResult)
        (emails : List (String × EmailMessage)) (batchId firstItemId firstActionId now : Nat),
      (create_email_review_batch account_id classifications emails
          batchId firstItemId firstActionId now).batch.item_count = classifications.length ∧
      (create_email_review_batch account_id classifications emails
          batchId firstItemId firstActionId now).batch.status = .pending) ∧
    (create_email_review_batch 1 [cls10] [] 2 10 20 0).items = [] ∧
    (create_email_review_batch 1 [cls10] [] 2 10 20 0).actions = [] ∧
    (create_email_review_batch 1 [cls10] [] 2 10 20 0).batch.item_count = 1 :=
  ⟨fun _ _ _ _ _ _ _ => ⟨rfl, rfl⟩, rfl, rfl, rfl⟩

/-! ## C1 — the executor selects nothing -/

theorem selectForExecution_eq_nil (db_actions : List ProposedAction)
    (batch_id : Nat) : selectForExecution db_actions batch_id = [] := by
  unfold selectForExecution notExecutedClause
  simp

/-- C1 (code bug): the claim — the pass dispatches exactly the actions with
`approved=true` and `executed=false` — fails because the WHERE clause at
`executor.py:24` uses Python `not` on the column object (see
`notExecutedClause`), so the SELECT matches no row: for every database
state, every batch and every environment the pass selects nothing, makes no
external call, updates no action, and returns the empty summary. In
particular an approved, unexecuted action (e.g. `a7` in batch 7) is never
processed. -/
theorem executor_never_dispatches (db_actions : List ProposedAction)
    (items : List ContentItem) (batch_id : Nat) (env : Env) (now : Nat) :
    execute_approved_actions db_actions items batch_id env now =
      ({ total := 0, succeeded := 0, failed := 0, errors := [] }, [], []) := by
  unfold execute_approved_actions
  rw [selectForExecution_eq_nil]
  rfl

/-! ## C6 — unsubscribe: HTTP call and archive share one guard -/

/-- Fixture: the content item of a newsletter email. -/
def i6 : ContentItem :=
  { id := 61, account_id := 1, source := .email, external_id := "m61",
    title := "Daily deals", snippet := "", sender := some "deals@example.com",
    category := some "NEWSLETTER", summary := some "", sensitivity_flag := false,
    ai_provider_used := some "local", thread_id := none, processed_at := some 1 }

/-- Fixture: an approved, unexecuted UNSUBSCRIBE action with an http URL. -/
def a6 : ProposedAction :=
  { id := 62, batch_id := 6, content_item_id := 61, action_type := .unsubscribe,
    action_params := some { label := none, unsubscribe_url := some "http://news.example/unsub", reply_body := none },
    reason := "newsletter", approved := some true, executed := false,
    executed_at := none, error := none }

/-- Environment where every external call succeeds. -/
def okEnv : Env := fun _ => .ok ""

/-- Environment where the unsubscribe HTTP request raises and every other
call succeeds. -/
def httpFailEnv : Env := fun c =>
  match c with
  | .http_get _ => .error "connection reset"
  | _ => .ok ""

/-- Same, with a different error text (used by the witness). -/
def timeoutEnv : Env := fun c =>
  match c with
  | .http_get _ => .error "timeout"
  | _ => .ok ""

/-- C6 counterexample: executing the approved UNSUBSCRIBE action `a6` when
the unsubscribe-URL request throws. The loop records the error, but the
trace contains only the HTTP call — the archive call for the same action
never fires, while the claim requires it to fire regardless. -/
theorem unsubscribe_http_failure_blocks_archive :
    processOne [i6] httpFailEnv 5 a6 =
      ({ a6 with error := some "connection reset", executed := true, executed_at := some 5 },
       false, some (62, "connection reset"),
       [.http_get "http://news.example/unsub"]) ∧
    ExtCall.archive "m61" ∉ [ExtCall.http_get "http://news.example/unsub"] :=
  ⟨rfl, by decide⟩

/-- C6 amended: an UNSUBSCRIBE action with an http URL performs the HTTP
request and then the archive inside one guard: when the HTTP request
succeeds both calls fire (in that order); when it throws, the action's error
text is recorded and the action marked executed by the loop, but the archive
call does not fire. -/
theorem unsubscribe_calls_single_guard
    (a : ProposedAction) (item : ContentItem) (env : Env)
    (items : List ContentItem) (url e : String) (now : Nat)
    (ht : a.action_type = .unsubscribe)
    (hu : (a.action_params.getD {}).unsubscribe_url = some url)
    (hp : startsWithHttp url = true)
    (hfind : items.find? (fun i => i.id == a.content_item_id) = some item) :
    (∀ v, env (.http_get url) = .ok v →
      (execSingle a item env).2 = [.http_get url, .archive item.external_id]) ∧
    (env (.http_get url) = .error e →
      processOne items env now a =
        ({ a with error := some e, executed := true, executed_at := some now },
       false, some (a.id, e), [.http_get url])) := by
  have hne : url ≠ "" := by
    intro h0
    rw [h0] at hp
    exact absurd hp (by decide)
  have hbranch : execSingle a item env =
      match env (.http_get url) with
      | .error e2 => (.error e2, [.http_get url])
      | .ok _ =>
        match env (.archive item.external_id) with
        | .error e2 => (.error e2, [.http_get url, .archive item.external_id])
        | .ok _ => (.ok (), [.http_get url, .archive item.external_id]) := by
    unfold execSingle
    rw [ht]
    dsimp only
    rw [hu]
    simp only [strTruthy, Option.getD_some, hp, Bool.and_true, ne_eq, hne,
      not_false_eq_true]
    rfl
  constructor
  · intro v hv
    rw [hbranch, hv]
    cases env (.archive item.external_id) <;> rfl
  · intro herr
    unfold processOne
    rw [hfind]
    dsimp only
    rw [hbranch, herr]

/-- Witness for the amended C6 at the concrete fixtures: with a working
environment both calls fire in order; with a throwing HTTP request the loop
records the error and only the HTTP call is in the trace. -/
theorem unsubscribe_calls_single_guard_witness :
    (execSingle a6 i6 okEnv).2 =
      [ExtCall.http_get "http://news.example/unsub", ExtCall.archive "m61"] ∧
    processOne [i6] timeoutEnv 5 a6 =
      ({ a6 with error := some "timeout", executed := true, executed_at := some 5 },
       false, some (62, "timeout"), [ExtCall.http_get "http://news.example/unsub"]) :=
  ⟨(unsubscribe_calls_single_guard a6 i6 okEnv [i6] "http://news.example/unsub"
      "x" 5 (by rfl) (by rfl) (by decide) (by rfl)).1 "" rfl,
   (unsubscribe_calls_single_guard a6 i6 timeoutEnv [i6] "http://news.example/unsub"
      "timeout" 5 (by rfl) (by rfl) (by decide) (by rfl)).2 rfl⟩

/-! ## C9 — unknown action kinds are absorbed by the batch pass -/

/-- Fixture: a content item referenced by the unknown-kind action. -/
def i9 : ContentItem :=
  { id := 91, account_id := 1, source := .email, external_id := "m91",
    title := "t", snippet := "", sender := none, category := none,
    summary := none, sensitivity_flag := false, ai_provider_used := none,
    thread_id := none, processed_at := none }

/-- Fixture: an approved action whose kind (BOOKMARK_TAG) is outside the
email executor dispatch set. -/
def a9 : ProposedAction :=
  { id := 92, batch_id := 9, content_item_id := 91, action_type := .bookmark_tag,
    action_params := none, reason := "", approved := some true,
    executed := false, executed_at := none, error := none }

/-- C9 counterexample: the batch pass over the approved BOOKMARK_TAG action
`a9` returns normally (its type has no error outcome — the loop catches
every exception): the ValueError text is absorbed as the action's recorded
error and a failed count, with no external call — it is not raised to the
caller as the claim states. -/
theorem unknown_action_type_absorbed :
    executeLoop [i9] okEnv 7 [a9] =
      ({ total := 1, succeeded := 0, failed := 1,
         errors := [(92, "Unknown action type: bookmark_tag")] },
       [{ a9 with error := some "Unknown action type: bookmark_tag", executed := true, executed_at := some 7 }],
       []) := rfl

/-- C9 amended: for an approved action whose kind is BOOKMARK_TAG or
PUBLISH_SUMMARY, `_execute_single` raises
`ValueError("Unknown action type: ...")` after zero external calls, and the
batch loop absorbs it like any dispatch failure: the text becomes the
action's error, the action is marked executed and counted as failed, and
nothing propagates to the caller of the pass. -/
theorem unknown_action_type_recorded_not_raised
    (a : ProposedAction) (items : List ContentItem) (item : ContentItem)
    (env : Env) (now : Nat)
    (hk : a.action_type = .bookmark_tag ∨ a.action_type = .publish_summary)
    (hfind : items.find? (fun i => i.id == a.content_item_id) = some item) :
    execSingle a item env =
      (.error ("Unknown action type: " ++ a.action_type.value), []) ∧
    processOne items env now a =
      ({ a with error := some ("Unknown action type: " ++ a.action_type.value), executed := true, executed_at := some now },
       false, some (a.id, "Unknown action type: " ++ a.action_type.value), []) := by
  have h1 : execSingle a item env =
      (.error ("Unknown action type: " ++ a.action_type.value), []) := by
    rcases hk with h | h <;> (unfold execSingle; rw [h])
  refine ⟨h1, ?_⟩
  unfold processOne
  rw [hfind]
  dsimp only
  rw [h1]

/-- Witness for the amended C9 at the concrete fixtures. -/
theorem unknown_action_type_recorded_not_raised_witness :
    execSingle a9 i9 okEnv =
      (.error ("Unknown action type: " ++ a9.action_type.value), []) ∧
    processOne [i9] okEnv 7 a9 =
      ({ a9 with error := some ("Unknown action type: " ++ a9.action_type.value), executed := true, executed_at := some 7 },
       false, some (92, "Unknown action type: " ++ a9.action_type.value), []) :=
  unknown_action_type_recorded_not_raised a9 [i9] i9 okEnv 7 (Or.inl (by rfl)) (by rfl)

/-! ## C8 — classification parse fallback and its hole -/

set_option maxRecDepth 8192 in
/-- C8 counterexample: the analysis text `"[1, 2]"` is valid JSON but not an
object, so `json.loads` succeeds, the guarded fallback is not taken, and the
subsequent `.get` access raises an AttributeError past the parse guard —
while the claim says no analysis text raises past this point. Moreover text
that does fail to parse yields the uppercase category "FYI", not the claimed
"fyi". -/
theorem classify_email_raises_on_nonobject_json :
    classify_email_result "m1" (some (.arr [.num 1, .num 2])) "[1, 2]" false =
      .error "AttributeError: list object has no attribute get" ∧
    classify_email_result "m2" none "not json" false =
      .ok { email_id := "m2", category := "FYI", reason := "not json",
            suggested_actions := ["keep"], priority := 3, is_sensitive := false,
            analyzed_locally := false, unsubscribe_url := none } ∧
    "FYI" ≠ "fyi" :=
  ⟨rfl, rfl, by decide⟩

/-- C8 amended: when parsing the analysis text as JSON fails,
`classify_email` returns the degraded result — category "FYI" (uppercase),
reason the first 200 characters of the raw text, suggested_actions
["keep"], priority 3 — without raising; analysis text that parses to a
non-object JSON value, however, still raises past this point (see the
counterexample). -/
theorem classify_email_parse_failure_fallback (msg_id content : String)
    (kept : Bool) :
    classify_email_result msg_id none content kept =
      .ok { email_id := msg_id, category := "FYI", reason := content.take 200,
            suggested_actions := ["keep"], priority := 3, is_sensitive := kept,
            analyzed_locally := kept, unsubscribe_url := none } := rfl

end Automate
